import Mathlib

/-!
Shallow embedding of `src/sheet_drive.py`, a thin client for a remote
spreadsheet service and a remote file-storage service.  Each Python function
becomes a Lean function over an explicit `World` (local filesystem facts,
remote-service contents and injected remote failures), returning an
`Except PyError` result together with a trace of observable `Event`s
(key-file parses, client builds, outbound network requests, destination-file
opens/closes, progress reports).  Exceptions become `Except.error`;
Python truthiness of the optional credential argument is modelled by
`PyCreds`/`pyTruthy`.
-/

namespace SheetDrive

/-- Scalar cell value as the spreadsheet service stores it
(text, number, or boolean-like). -/
inductive Cell
  | s (v : String)
  | i (v : Int)
  | b (v : Bool)
  deriving DecidableEq, Repr

/-- A value grid: ordered rows of ordered cells, possibly ragged. -/
abbrev Grid := List (List Cell)

/-- The exceptions the embedded code can raise: `FileNotFoundError` from
`get_credentials` and from `MediaFileUpload` on a missing local file, a parse
failure of the key document, arbitrary transport errors from the remote
services, a remote not-found, a non-writable destination for `io.FileIO`,
and `streamHang`, the model's rendering of a chunk stream that ends before
the download is done (the real loop would block forever there). -/
inductive PyError
  | fileNotFound (path : String)
  | keyParseError (path : String)
  | httpError (msg : String)
  | notFound (fileId : String)
  | destNotWritable (path : String)
  | streamHang
  deriving DecidableEq, Repr

/-- A service-account credential: the key-file path it was parsed from plus
the granted scopes (the handle is opaque; these two fields identify it). -/
structure Credentials where
  saFile : String
  scopes : List String
  deriving DecidableEq, Repr

/-- The Python value passed for the optional `creds` parameter: `None`
(the default), some other falsy object (`False`, `0`, `""`, ...), or an
actual credential object (always truthy: the credential class defines no
custom falsiness). -/
inductive PyCreds
  | none
  | falsyObj
  | creds (c : Credentials)
  deriving DecidableEq, Repr

/-- Python truthiness of a `creds` argument. -/
def pyTruthy : PyCreds → Bool
  | PyCreds.creds _ => true
  | _ => false

/-- The metadata body `upload_file_to_drive` builds for `files().create`:
`{"name": ...}` plus an optional `"parents": [...]` entry. -/
structure DriveMeta where
  name : String
  parents : Option (List String)
  deriving DecidableEq, Repr

/-- Outbound network requests the script can issue (one per `.execute()`
call on a service object). -/
inductive NetReq
  | sheetsGet (spreadsheetId rangeName : String)
  | sheetsUpdate (spreadsheetId rangeName : String) (values : Grid) (valueInputOpt : String)
  | driveCreate (body : DriveMeta) (mediaPath : String) (mimeType : Option String) (fields : String)
  | driveGet (fileId : String) (fields : String)
  deriving DecidableEq, Repr

/-- Observable events of one call: key-file parse, client-handle build
(static discovery, not a network call), an outbound network request, the
destination-file open/close of a download, and a progress report
(the chunk fetches of a download are implicit in its progress reports). -/
inductive Event
  | parseKeyFile (path : String)
  | buildService (api : String) (c : Credentials)
  | request (r : NetReq)
  | openDest (path : String) (mode : String)
  | closeDest (path : String)
  | progress (fraction : ℚ)
  deriving DecidableEq, Repr

/-- The environment a call runs against: the `GOOGLE_APPLICATION_CREDENTIALS`
variable, which local paths exist, whether the key file parses, the remote
sheet contents (per spreadsheet id and range), the service's interpretation
of values written in `USER_ENTERED` mode, injected remote failures, the id
the storage service assigns on create, stored file metadata records, remote
file sizes, the download chunk size and per-chunk outcomes, which
destination paths are writable, and the outcome of opening a local path for
writing (for the sample-file creation in `main`). -/
structure World where
  gacEnv : Option String
  pathExists : String → Bool
  keyParseOk : String → Bool
  sheet : String → String → Option Grid
  interpretUserEntered : Grid → Grid
  sheetGetErr : String → String → Option PyError
  sheetUpdateErr : String → String → Option PyError
  driveCreateErr : Option PyError
  driveCreatedId : String
  driveMeta : String → Option (List (String × String))
  driveGetErr : String → Option PyError
  driveFileSize : String → Nat
  chunkSize : Nat
  chunkPlan : List (Option PyError)
  destWritable : String → Bool
  localWriteErr : String → Option PyError

/-- `SERVICE_ACCOUNT_FILE = os.environ.get("GOOGLE_APPLICATION_CREDENTIALS",
"service_account.json")`. -/
def SERVICE_ACCOUNT_FILE (w : World) : String :=
  w.gacEnv.getD "service_account.json"

/-- The module-level `SCOPES` list. -/
def SCOPES : List String :=
  ["https://www.googleapis.com/auth/spreadsheets",
   "https://www.googleapis.com/auth/drive"]

/-- `get_credentials(sa_file, scopes)`: raises `FileNotFoundError` when the
path does not exist; otherwise parses the key file (the only event) and
returns the credential.  No network call occurs at load time. -/
def get_credentials (w : World) (sa_file : String) (scopes : List String) :
    Except PyError Credentials × List Event :=
  if w.pathExists sa_file then
    if w.keyParseOk sa_file then
      (Except.ok { saFile := sa_file, scopes := scopes }, [Event.parseKeyFile sa_file])
    else
      (Except.error (PyError.keyParseError sa_file), [Event.parseKeyFile sa_file])
  else
    (Except.error (PyError.fileNotFound sa_file), [])

/-- The `creds = creds or get_credentials()` line shared by all five
operations: a truthy argument is used as supplied, any falsy argument makes
the operation load fresh default credentials. -/
def resolveCreds (w : World) (creds : PyCreds) : Except PyError Credentials × List Event :=
  match creds with
  | PyCreds.creds c => (Except.ok c, [])
  | _ => get_credentials w (SERVICE_ACCOUNT_FILE w) SCOPES

/-- `read_sheet_values(spreadsheet_id, range_name, creds)`: one
`values().get` call; returns `result.get("values", [])`. -/
def read_sheet_values (w : World) (spreadsheet_id range_name : String) (creds : PyCreds) :
    Except PyError Grid × List Event :=
  match resolveCreds w creds with
  | (Except.error e, evs) => (Except.error e, evs)
  | (Except.ok c, evs0) =>
      let evs := evs0 ++ [Event.buildService "sheets" c,
        Event.request (NetReq.sheetsGet spreadsheet_id range_name)]
      let res : Except PyError Grid :=
        match w.sheetGetErr spreadsheet_id range_name with
        | some e => Except.error e
        | none => Except.ok ((w.sheet spreadsheet_id range_name).getD [])
      (res, evs)

/-- Total cell count of a grid; the service's `updatedCells` summary. -/
def cellCount (g : Grid) : Nat :=
  (g.map List.length).sum

/-- The service's change summary for an update call. -/
structure UpdateResult where
  spreadsheetId : String
  updatedRange : String
  updatedCells : Nat
  deriving DecidableEq, Repr

/-- `write_sheet_values(spreadsheet_id, range_name, values, creds,
value_input_option)`: one `values().update` call that overwrites the
addressed range.  Modelled from the spec: the remote service stores the
supplied grid verbatim in `"RAW"` mode and an interpreted grid otherwise,
and reports the count of cells updated.  Returns (result, world after the
call, events). -/
def write_sheet_values (w : World) (spreadsheet_id range_name : String) (values : Grid)
    (creds : PyCreds) (value_input_option : String) :
    Except PyError UpdateResult × World × List Event :=
  match resolveCreds w creds with
  | (Except.error e, evs) => (Except.error e, w, evs)
  | (Except.ok c, evs0) =>
      let evs := evs0 ++ [Event.buildService "sheets" c,
        Event.request (NetReq.sheetsUpdate spreadsheet_id range_name values value_input_option)]
      let stored := if value_input_option = "RAW" then values else w.interpretUserEntered values
      let res : Except PyError UpdateResult :=
        match w.sheetUpdateErr spreadsheet_id range_name with
        | some e => Except.error e
        | none => Except.ok
            { spreadsheetId := spreadsheet_id
              updatedRange := range_name
              updatedCells := cellCount values }
      let w' : World :=
        match w.sheetUpdateErr spreadsheet_id range_name with
        | some _ => w
        | none => { w with sheet := fun s r =>
            if s = spreadsheet_id ∧ r = range_name then some stored else w.sheet s r }
      (res, w', evs)

/-- Characters of the final path segment: restart the accumulator at every
slash and return what follows the last one. -/
def basenameAux : List Char → List Char → List Char
  | [], acc => acc.reverse
  | '/' :: rest, _ => basenameAux rest []
  | ch :: rest, acc => basenameAux rest (ch :: acc)

/-- `os.path.basename` for POSIX paths: the part after the last slash. -/
def basename (p : String) : String :=
  String.mk (basenameAux p.toList [])

/-- `upload_file_to_drive(file_path, mime_type, creds, parent_folder_id)`:
builds the metadata body (`parents` set only when `parent_folder_id` is
truthy, so not for `None` and not for `""`), then `MediaFileUpload` raises
`FileNotFoundError` on a missing local file before the `files().create`
network call; on success returns the id assigned by the service. -/
def upload_file_to_drive (w : World) (file_path : String) (mime_type : Option String)
    (creds : PyCreds) (parent_folder_id : Option String) :
    Except PyError String × List Event :=
  match resolveCreds w creds with
  | (Except.error e, evs) => (Except.error e, evs)
  | (Except.ok c, evs0) =>
      let file_metadata : DriveMeta :=
        match parent_folder_id with
        | some p =>
            if p = "" then { name := basename file_path, parents := Option.none }
            else { name := basename file_path, parents := some [p] }
        | Option.none => { name := basename file_path, parents := Option.none }
      if w.pathExists file_path then
        let evs := evs0 ++ [Event.buildService "drive" c,
          Event.request (NetReq.driveCreate file_metadata file_path mime_type "id")]
        let res : Except PyError String :=
          match w.driveCreateErr with
          | some e => Except.error e
          | none => Except.ok w.driveCreatedId
        (res, evs)
      else
        (Except.error (PyError.fileNotFound file_path),
          evs0 ++ [Event.buildService "drive" c])

/-- The `while not done` loop of `download_file_from_drive`, driven by the
world's per-chunk outcomes: each successful `next_chunk` receives
`min chunkSize (total - progress)` bytes and reports the completion fraction
`progress / total` (0 when the total size is 0); a failing entry raises; an
exhausted plan before completion is the model's `streamHang`.  Returns the
loop's outcome and the progress events it printed. -/
def downloadLoop (total c : Nat) : List (Option PyError) → Nat → Except PyError Unit × List Event
  | [], _ => (Except.error PyError.streamHang, [])
  | some e :: _, _ => (Except.error e, [])
  | none :: rest, prog =>
      let prog' := prog + min c (total - prog)
      let frac : ℚ := if total = 0 then 0 else (prog' : ℚ) / (total : ℚ)
      if total ≤ prog' then (Except.ok (), [Event.progress frac])
      else
        let r := downloadLoop total c rest prog'
        (r.fst, Event.progress frac :: r.snd)

/-- `download_file_from_drive(file_id, destination_path, creds)`: opens the
destination with `io.FileIO(destination_path, mode="wb")` (truncating write;
raises when the destination is not writable), runs the chunk loop, and only
after a fully successful loop executes `fh.close()` — there is no
`try/finally`, so an error raised by `next_chunk` propagates without the
close being reached. -/
def download_file_from_drive (w : World) (file_id destination_path : String) (creds : PyCreds) :
    Except PyError String × List Event :=
  match resolveCreds w creds with
  | (Except.error e, evs) => (Except.error e, evs)
  | (Except.ok c, evs0) =>
      if w.destWritable destination_path then
        let evs := evs0 ++ [Event.buildService "drive" c,
          Event.openDest destination_path "wb"]
        let r := downloadLoop (w.driveFileSize file_id) w.chunkSize w.chunkPlan 0
        match r.fst with
        | Except.ok _ =>
            (Except.ok destination_path, evs ++ r.snd ++ [Event.closeDest destination_path])
        | Except.error e => (Except.error e, evs ++ r.snd)
      else
        (Except.error (PyError.destNotWritable destination_path),
          evs0 ++ [Event.buildService "drive" c])

/-- The fixed field string of `get_file_metadata`. -/
def driveFields : String := "id, name, mimeType, size, parents"

/-- Splitting a field string at each `", "` separator, over its characters. -/
def fieldsAux : List Char → List Char → List String
  | [], acc => [String.mk acc.reverse]
  | ',' :: ' ' :: rest, acc => String.mk acc.reverse :: fieldsAux rest []
  | ch :: rest, acc => fieldsAux rest (ch :: acc)

/-- The field names a `fields` request parameter asks for. -/
def parseFields (s : String) : List String :=
  fieldsAux s.toList []

/-- `get_file_metadata(file_id, creds)`: one `files().get` call with the
fixed field string.  Modelled from the spec: the storage service returns the
stored metadata record restricted to the requested fields (not-found when
the id does not resolve). -/
def get_file_metadata (w : World) (file_id : String) (creds : PyCreds) :
    Except PyError (List (String × String)) × List Event :=
  match resolveCreds w creds with
  | (Except.error e, evs) => (Except.error e, evs)
  | (Except.ok c, evs0) =>
      let evs := evs0 ++ [Event.buildService "drive" c,
        Event.request (NetReq.driveGet file_id driveFields)]
      let requested := parseFields driveFields
      let res : Except PyError (List (String × String)) :=
        match w.driveGetErr file_id with
        | some e => Except.error e
        | none =>
            match w.driveMeta file_id with
            | Option.none => Except.error (PyError.notFound file_id)
            | some record => Except.ok (record.filter (fun kv => decide (kv.fst ∈ requested)))
      (res, evs)

/-- Rendering of a raised exception, as `print` would show it. -/
def PyError.msg : PyError → String
  | PyError.fileNotFound p => "FileNotFoundError: " ++ p
  | PyError.keyParseError p => "KeyParseError: " ++ p
  | PyError.httpError m => "HttpError: " ++ m
  | PyError.notFound fid => "NotFound: " ++ fid
  | PyError.destNotWritable p => "DestNotWritable: " ++ p
  | PyError.streamHang => "StreamHang"

/-- Rendering of a cell, for the row printing in `main`. -/
def showCell : Cell → String
  | Cell.s v => v
  | Cell.i v => toString v
  | Cell.b v => toString v

/-- Rendering of a row, for the printing in `main`. -/
def showRow (row : List Cell) : String :=
  String.intercalate ", " (row.map showCell)

/-- The sample grid `main` writes. -/
def demoWriteValues : Grid :=
  [[Cell.s "Name", Cell.s "Age"], [Cell.s "Alice", Cell.s "30"], [Cell.s "Bob", Cell.s "28"]]

/-- The sample-file creation in `main`: `if not os.path.exists(LOCAL_FILE)`
followed by `open(LOCAL_FILE, "w", ...)` and a write.  The open/write can
fail (unwritable directory, disk full); on success the path exists
afterwards.  This statement sits outside every try block in `main`. -/
def ensureLocalFile (w : World) (path : String) : Except PyError World :=
  if w.pathExists path then Except.ok w
  else
    match w.localWriteErr path with
    | some e => Except.error e
    | none => Except.ok { w with pathExists := fun p => p = path || w.pathExists p }

/-- `main()`: loads credentials OUTSIDE any try block (a failure there
propagates out of `main`, modelled as `Except.error`), then runs the read,
write and upload steps each in its own try/except that prints the error and
continues; between write and upload the sample upload file is created when
missing — also outside every try block, so a failing local write propagates
too; `FILE_ID` is left at its placeholder, so the download branch is
skipped.  On a normal exit returns the printed lines. -/
def main (w : World) : Except PyError (List String) :=
  match (get_credentials w (SERVICE_ACCOUNT_FILE w) SCOPES).fst with
  | Except.error e => Except.error e
  | Except.ok creds0 =>
      let c := PyCreds.creds creds0
      let readLines :=
        match (read_sheet_values w "YOUR_SPREADSHEET_ID" "Sheet1!A1:C10" c).fst with
        | Except.ok values => "Read values:" :: values.map showRow
        | Except.error e => ["Error reading sheet: " ++ e.msg]
      let writeStep := write_sheet_values w "YOUR_SPREADSHEET_ID" "Sheet1!A1:B3" demoWriteValues c "RAW"
      let writeLines :=
        match writeStep.fst with
        | Except.ok r => ["Write result: " ++ toString r.updatedCells]
        | Except.error e => ["Error writing sheet: " ++ e.msg]
      let w1 := writeStep.snd.fst
      match ensureLocalFile w1 "example_upload.txt" with
      | Except.error e => Except.error e
      | Except.ok w2 =>
          let uploadLines :=
            match (upload_file_to_drive w2 "example_upload.txt" (some "text/plain") c Option.none).fst with
            | Except.ok fid => ["Uploaded file ID: " ++ fid]
            | Except.error e => ["Error uploading file: " ++ e.msg]
          let tailLines :=
            if ("YOUR_FILE_ID" : String) ≠ "YOUR_FILE_ID" then
              match (download_file_from_drive w2 "YOUR_FILE_ID" "downloaded_example.txt" c).fst with
              | Except.ok p => ["Downloaded to: " ++ p]
              | Except.error e => ["Error downloading file: " ++ e.msg]
            else ["Set FILE_ID to a real file id to test download."]
          Except.ok (readLines ++ writeLines ++ uploadLines ++ tailLines)

/-- Whether an `Except` is a success. -/
def isOkE {ε α : Type} : Except ε α → Bool
  | Except.ok _ => true
  | Except.error _ => false

/-- Whether an event is the destination-file close of a download. -/
def isCloseDest : Event → Bool
  | Event.closeDest _ => true
  | _ => false

/-- Whether an event is a progress report. -/
def isProgress : Event → Bool
  | Event.progress _ => true
  | _ => false

/-- Whether an event is an outbound network request. -/
def isRequest : Event → Bool
  | Event.request _ => true
  | _ => false

/-- The credential bound by the first client build of a trace: the
credential the operation actually used. -/
def usedCreds : List Event → Option Credentials
  | [] => Option.none
  | Event.buildService _ c :: _ => some c
  | _ :: rest => usedCreds rest

/-- The metadata body of the first `files().create` request of a trace. -/
def createdMeta : List Event → Option DriveMeta
  | [] => Option.none
  | Event.request (NetReq.driveCreate m _ _ _) :: _ => some m
  | _ :: rest => createdMeta rest

/-- How many chunks the download loop successfully fetches (one progress
report is printed per fetched chunk). -/
def fetchedChunks (total c : Nat) : List (Option PyError) → Nat → Nat
  | [], _ => 0
  | some _ :: _, _ => 0
  | none :: rest, prog =>
      let prog' := prog + min c (total - prog)
      if total ≤ prog' then 1 else 1 + fetchedChunks total c rest prog'

/-- A credential used by the concrete test worlds. -/
def cred0 : Credentials := { saFile := "sa.json", scopes := SCOPES }

/-- The stored metadata record of the concrete test file `meta-file`. -/
def record0 : List (String × String) :=
  [("id", "meta-file"), ("name", "report.csv"), ("mimeType", "text/csv"),
   ("size", "2048"), ("parents", "root")]

/-- A concrete world where every local path exists, the key file parses, no
remote failure is injected, and a 10-byte remote file downloads in chunks of
4 over a three-entry chunk plan. -/
def wBase : World where
  gacEnv := Option.none
  pathExists := fun _ => true
  keyParseOk := fun _ => true
  sheet := fun _ _ => Option.none
  interpretUserEntered := fun g => g
  sheetGetErr := fun _ _ => Option.none
  sheetUpdateErr := fun _ _ => Option.none
  driveCreateErr := Option.none
  driveCreatedId := "id-new-file-001"
  driveMeta := fun fid => if fid = "meta-file" then some record0 else Option.none
  driveGetErr := fun _ => Option.none
  driveFileSize := fun _ => 10
  chunkSize := 4
  chunkPlan := [Option.none, Option.none, Option.none]
  destWritable := fun _ => true
  localWriteErr := fun _ => Option.none

/-- `wBase` with a chunk plan whose first fetch raises a transport error. -/
def wFailChunk : World :=
  { wBase with chunkPlan := [some (PyError.httpError "boom")] }

/-- `wBase` with no local path existing (in particular no key file). -/
def wNoCred : World :=
  { wBase with pathExists := fun _ => false }

/-!  Helper lemmas about the traces of the embedded operations. -/

/-- The events of a credential load are parse events only: no close. -/
theorem get_credentials_no_close (w : World) (sa : String) (sc : List String) :
    ((get_credentials w sa sc).snd).countP isCloseDest = 0 := by
  unfold get_credentials
  split
  · split <;> rfl
  · rfl

/-- Credential resolution emits no destination-file close. -/
theorem resolveCreds_no_close (w : World) (pc : PyCreds) :
    ((resolveCreds w pc).snd).countP isCloseDest = 0 := by
  cases pc with
  | creds c => rfl
  | none => exact get_credentials_no_close w _ _
  | falsyObj => exact get_credentials_no_close w _ _

/-- The download loop emits progress events only: no close. -/
theorem downloadLoop_no_close (total c : Nat) :
    ∀ (plan : List (Option PyError)) (prog : Nat),
      ((downloadLoop total c plan prog).snd).countP isCloseDest = 0 := by
  intro plan
  induction plan with
  | nil => intro prog; rfl
  | cons hd tl ih =>
      intro prog
      cases hd with
      | some e => rfl
      | none =>
          unfold downloadLoop
          by_cases h : total ≤ prog + min c (total - prog)
          · simp [h, isCloseDest]
          · simp [h, List.countP_cons, isCloseDest, ih]

/-- Bounds of a single reported completion fraction. -/
theorem frac_bounds (total p : Nat) (h : p ≤ total) :
    0 ≤ (if total = 0 then (0 : ℚ) else (p : ℚ) / (total : ℚ)) ∧
    (if total = 0 then (0 : ℚ) else (p : ℚ) / (total : ℚ)) ≤ 1 := by
  by_cases h0 : total = 0
  · simp [h0]
  · have htpos : (0 : ℚ) < (total : ℚ) := by
      exact_mod_cast Nat.pos_of_ne_zero h0
    rw [if_neg h0]
    constructor
    · positivity
    · rw [div_le_one htpos]
      exact_mod_cast h

/-- Every fraction the download loop reports lies in `[0, 1]`. -/
theorem downloadLoop_progress_bounds (total c : Nat) :
    ∀ (plan : List (Option PyError)) (prog : Nat), prog ≤ total →
      ∀ q : ℚ, Event.progress q ∈ (downloadLoop total c plan prog).snd →
        0 ≤ q ∧ q ≤ 1 := by
  intro plan
  induction plan with
  | nil => intro prog _ q hq; simp [downloadLoop] at hq
  | cons hd tl ih =>
      intro prog hp q hq
      cases hd with
      | some e => simp [downloadLoop] at hq
      | none =>
          have hmin : prog + min c (total - prog) ≤ total := by
            have h1 : min c (total - prog) ≤ total - prog := Nat.min_le_right _ _
            omega
          unfold downloadLoop at hq
          by_cases hdone : total ≤ prog + min c (total - prog)
          · simp only [if_pos hdone, List.mem_singleton, Event.progress.injEq] at hq
            subst hq
            exact frac_bounds total _ hmin
          · simp only [if_neg hdone, List.mem_cons, Event.progress.injEq] at hq
            cases hq with
            | inl hq =>
                subst hq
                exact frac_bounds total _ hmin
            | inr hq => exact ih _ hmin q hq

/-- The download loop reports progress exactly once per fetched chunk. -/
theorem downloadLoop_progress_count (total c : Nat) :
    ∀ (plan : List (Option PyError)) (prog : Nat),
      ((downloadLoop total c plan prog).snd).countP isProgress =
        fetchedChunks total c plan prog := by
  intro plan
  induction plan with
  | nil => intro prog; rfl
  | cons hd tl ih =>
      intro prog
      cases hd with
      | some e => rfl
      | none =>
          unfold downloadLoop fetchedChunks
          by_cases h : total ≤ prog + min c (total - prog)
          · simp [h, isProgress]
          · simp [h, List.countP_cons, isProgress, ih]
            omega

/-- A sheet write only changes the stored sheet contents: the local
filesystem facts of the world are preserved. -/
theorem write_sheet_values_world (w : World) (sid rng : String) (vals : Grid)
    (pc : PyCreds) (vio : String) :
    ((write_sheet_values w sid rng vals pc vio).snd.fst).pathExists = w.pathExists ∧
    ((write_sheet_values w sid rng vals pc vio).snd.fst).localWriteErr = w.localWriteErr := by
  unfold write_sheet_values
  rcases hr : resolveCreds w pc with ⟨res, evs⟩
  cases res with
  | error e => simp
  | ok c => cases w.sheetUpdateErr sid rng <;> simp

/-!  Claim theorems. -/

set_option maxHeartbeats 1000000 in
/-- Claim C1, counterexample: on a download whose first chunk fetch raises a
transport error, the function propagates the error and the destination
handle is closed zero times, not once — `fh.close()` sits after the loop
with no `try/finally`. -/
theorem c1_close_counterexample :
    (download_file_from_drive wFailChunk "fid" "dest.bin" (PyCreds.creds cred0)).fst
        = Except.error (PyError.httpError "boom") ∧
    ((download_file_from_drive wFailChunk "fid" "dest.bin" (PyCreds.creds cred0)).snd).countP
        isCloseDest = 0 := by
  exact ⟨by rfl, by decide⟩

/-- Claim C1, amended: for every download call, the destination handle is
closed exactly once when the call succeeds and zero times when it fails
(credential failure, unwritable destination, or an error raised while
fetching a chunk). -/
theorem c1_close_amended (w : World) (fid dest : String) (pc : PyCreds) :
    ((download_file_from_drive w fid dest pc).snd).countP isCloseDest =
      if isOkE (download_file_from_drive w fid dest pc).fst then 1 else 0 := by
  have hres := resolveCreds_no_close w pc
  unfold download_file_from_drive
  rcases hrc : resolveCreds w pc with ⟨res, evs⟩
  rw [hrc] at hres
  simp only at hres
  cases res with
  | error e => simp [isOkE, hres]
  | ok c =>
      by_cases hw : w.destWritable dest
      · rcases hl : downloadLoop (w.driveFileSize fid) w.chunkSize w.chunkPlan 0 with ⟨lres, levs⟩
        have hlc := downloadLoop_no_close (w.driveFileSize fid) w.chunkSize w.chunkPlan 0
        rw [hl] at hlc
        simp only at hlc
        cases lres with
        | ok u =>
            simp [hw, hl, isOkE, List.countP_append, hres, hlc, isCloseDest]
        | error e =>
            simp [hw, hl, isOkE, List.countP_append, hres, hlc, isCloseDest]
      · simp [hw, isOkE, List.countP_append, hres, isCloseDest]

/-- Claim C3: when the local path does not exist, the File Uploader raises a
local file-not-found error (from `MediaFileUpload`) and issues no network
request. -/
theorem c3_upload_local_check (w : World) (path : String) (mime : Option String)
    (c : Credentials) (pid : Option String) (h : w.pathExists path = false) :
    (upload_file_to_drive w path mime (PyCreds.creds c) pid).fst
        = Except.error (PyError.fileNotFound path) ∧
    ∀ r : NetReq, Event.request r ∉ (upload_file_to_drive w path mime (PyCreds.creds c) pid).snd := by
  simp [upload_file_to_drive, resolveCreds, h]

/-- Witness for C3 at a concrete world and path. -/
theorem c3_upload_local_check_witness :
    wNoCred.pathExists "missing.txt" = false ∧
    ((upload_file_to_drive wNoCred "missing.txt" Option.none (PyCreds.creds cred0) Option.none).fst
        = Except.error (PyError.fileNotFound "missing.txt") ∧
     ∀ r : NetReq, Event.request r ∉
        (upload_file_to_drive wNoCred "missing.txt" Option.none (PyCreds.creds cred0) Option.none).snd) :=
  ⟨rfl, c3_upload_local_check wNoCred "missing.txt" Option.none cred0 Option.none rfl⟩

/-- Claim C4: when the key-file path does not exist, the Credential Loader
fails with a file-not-found error and its trace is empty — no network call
and no parse of the key file. -/
theorem c4_credential_check (w : World) (sa : String) (sc : List String)
    (h : w.pathExists sa = false) :
    get_credentials w sa sc = (Except.error (PyError.fileNotFound sa), []) := by
  simp [get_credentials, h]

/-- Witness for C4 at a concrete world and path. -/
theorem c4_credential_check_witness :
    wNoCred.pathExists "missing.json" = false ∧
    get_credentials wNoCred "missing.json" SCOPES
        = (Except.error (PyError.fileNotFound "missing.json"), []) :=
  ⟨rfl, c4_credential_check wNoCred "missing.json" SCOPES rfl⟩

/-- Claim C5: on a successful call the Sheet Reader returns exactly the
value grid of the service response, and the empty grid when the response
carries no values. -/
theorem c5_read_returns_response (w : World) (sid rng : String) (c : Credentials)
    (h : w.sheetGetErr sid rng = Option.none) :
    (∀ g : Grid, w.sheet sid rng = some g →
        (read_sheet_values w sid rng (PyCreds.creds c)).fst = Except.ok g) ∧
    (w.sheet sid rng = Option.none →
        (read_sheet_values w sid rng (PyCreds.creds c)).fst = Except.ok ([] : Grid)) := by
  constructor
  · intro g hg
    simp [read_sheet_values, resolveCreds, h, hg]
  · intro hg
    simp [read_sheet_values, resolveCreds, h, hg]

/-- Witness for C5 at a concrete world, id and range. -/
theorem c5_read_returns_response_witness :
    wBase.sheetGetErr "D1" "Sheet1!A1:B2" = Option.none ∧
    ((∀ g : Grid, wBase.sheet "D1" "Sheet1!A1:B2" = some g →
        (read_sheet_values wBase "D1" "Sheet1!A1:B2" (PyCreds.creds cred0)).fst = Except.ok g) ∧
     (wBase.sheet "D1" "Sheet1!A1:B2" = Option.none →
        (read_sheet_values wBase "D1" "Sheet1!A1:B2" (PyCreds.creds cred0)).fst
            = Except.ok ([] : Grid))) :=
  ⟨rfl, c5_read_returns_response wBase "D1" "Sheet1!A1:B2" cred0 rfl⟩

/-- Claim C6: writing a grid in `"RAW"` mode and immediately reading the
same range back returns exactly the grid that was written (the remote
service stores a `"RAW"` update verbatim and the reader returns the stored
values). -/
theorem c6_write_read_roundtrip (w : World) (sid rng : String) (vals : Grid) (c : Credentials)
    (hU : w.sheetUpdateErr sid rng = Option.none)
    (hG : w.sheetGetErr sid rng = Option.none) :
    isOkE (write_sheet_values w sid rng vals (PyCreds.creds c) "RAW").fst = true ∧
    (read_sheet_values ((write_sheet_values w sid rng vals (PyCreds.creds c) "RAW").snd.fst)
        sid rng (PyCreds.creds c)).fst = Except.ok vals := by
  constructor
  · simp [write_sheet_values, resolveCreds, hU, isOkE]
  · simp [write_sheet_values, read_sheet_values, resolveCreds, hU, hG]

/-- Witness for C6 at a concrete world, range and grid. -/
theorem c6_write_read_roundtrip_witness :
    wBase.sheetUpdateErr "D1" "Sheet1!A1:B3" = Option.none ∧
    wBase.sheetGetErr "D1" "Sheet1!A1:B3" = Option.none ∧
    (isOkE (write_sheet_values wBase "D1" "Sheet1!A1:B3" demoWriteValues
        (PyCreds.creds cred0) "RAW").fst = true ∧
     (read_sheet_values ((write_sheet_values wBase "D1" "Sheet1!A1:B3" demoWriteValues
        (PyCreds.creds cred0) "RAW").snd.fst) "D1" "Sheet1!A1:B3" (PyCreds.creds cred0)).fst
        = Except.ok demoWriteValues) :=
  ⟨rfl, rfl, c6_write_read_roundtrip wBase "D1" "Sheet1!A1:B3" demoWriteValues cred0 rfl rfl⟩

/-- Claim C7: the Metadata Fetcher issues its request with the fixed field
string `"id, name, mimeType, size, parents"`, that string names exactly the
five fields, and every key of a successfully returned record is among those
five. -/
theorem c7_metadata_fields (w : World) (fid : String) (c : Credentials)
    (record : List (String × String))
    (hE : w.driveGetErr fid = Option.none)
    (hM : w.driveMeta fid = some record) :
    Event.request (NetReq.driveGet fid driveFields) ∈
        (get_file_metadata w fid (PyCreds.creds c)).snd ∧
    parseFields driveFields = ["id", "name", "mimeType", "size", "parents"] ∧
    ∀ r : List (String × String),
      (get_file_metadata w fid (PyCreds.creds c)).fst = Except.ok r →
      ∀ kv ∈ r, kv.fst ∈ ["id", "name", "mimeType", "size", "parents"] := by
  have hsplit : parseFields driveFields = ["id", "name", "mimeType", "size", "parents"] := by
    decide
  refine ⟨?_, hsplit, ?_⟩
  · simp [get_file_metadata, resolveCreds]
  · intro r hr kv hkv
    simp only [get_file_metadata, resolveCreds, hE, hM, Except.ok.injEq] at hr
    subst hr
    have hp := List.of_mem_filter hkv
    rw [hsplit] at hp
    exact of_decide_eq_true hp

/-- Witness for C7 at a concrete world and file id. -/
theorem c7_metadata_fields_witness :
    wBase.driveGetErr "meta-file" = Option.none ∧
    wBase.driveMeta "meta-file" = some record0 ∧
    (Event.request (NetReq.driveGet "meta-file" driveFields) ∈
        (get_file_metadata wBase "meta-file" (PyCreds.creds cred0)).snd ∧
     parseFields driveFields = ["id", "name", "mimeType", "size", "parents"] ∧
     ∀ r : List (String × String),
       (get_file_metadata wBase "meta-file" (PyCreds.creds cred0)).fst = Except.ok r →
       ∀ kv ∈ r, kv.fst ∈ ["id", "name", "mimeType", "size", "parents"]) :=
  ⟨rfl, by decide, c7_metadata_fields wBase "meta-file" cred0 record0 rfl (by decide)⟩

/-- Claim C8: on a writable destination, the downloader opens the
destination in truncating write mode (`"wb"`), every reported completion
fraction lies in `[0, 1]`, and the progress observer fires exactly once per
fetched chunk. -/
theorem c8_download_open_progress (w : World) (fid dest : String) (c : Credentials)
    (hw : w.destWritable dest = true) :
    Event.openDest dest "wb" ∈ (download_file_from_drive w fid dest (PyCreds.creds c)).snd ∧
    (∀ q : ℚ, Event.progress q ∈ (download_file_from_drive w fid dest (PyCreds.creds c)).snd →
        0 ≤ q ∧ q ≤ 1) ∧
    ((download_file_from_drive w fid dest (PyCreds.creds c)).snd).countP isProgress =
      fetchedChunks (w.driveFileSize fid) w.chunkSize w.chunkPlan 0 := by
  have hb := downloadLoop_progress_bounds (w.driveFileSize fid) w.chunkSize w.chunkPlan 0
    (Nat.zero_le _)
  have hc := downloadLoop_progress_count (w.driveFileSize fid) w.chunkSize w.chunkPlan 0
  rcases hl : downloadLoop (w.driveFileSize fid) w.chunkSize w.chunkPlan 0 with ⟨lres, levs⟩
  rw [hl] at hb hc
  simp only at hb hc
  unfold download_file_from_drive
  simp only [resolveCreds, hw, if_true, List.nil_append, hl]
  cases lres with
  | ok u =>
      refine ⟨by simp, ?_, ?_⟩
      · intro q hq
        simp only [List.mem_append, List.mem_cons, List.not_mem_nil, or_false] at hq
        rcases hq with ((hq | hq) | hq) | hq
        · exact absurd hq (by simp)
        · exact absurd hq (by simp)
        · exact hb q hq
        · exact absurd hq (by simp)
      · simp [List.countP_append, List.countP_cons, isProgress, hc]
  | error e =>
      refine ⟨by simp, ?_, ?_⟩
      · intro q hq
        simp only [List.mem_append, List.mem_cons, List.not_mem_nil, or_false] at hq
        rcases hq with (hq | hq) | hq
        · exact absurd hq (by simp)
        · exact absurd hq (by simp)
        · exact hb q hq
      · simp [List.countP_append, List.countP_cons, isProgress, hc]

/-- Witness for C8 at a concrete world: a 10-byte file in chunks of 4. -/
theorem c8_download_open_progress_witness :
    wBase.destWritable "dest.bin" = true ∧
    (Event.openDest "dest.bin" "wb" ∈
        (download_file_from_drive wBase "fid" "dest.bin" (PyCreds.creds cred0)).snd ∧
     (∀ q : ℚ, Event.progress q ∈
          (download_file_from_drive wBase "fid" "dest.bin" (PyCreds.creds cred0)).snd →
        0 ≤ q ∧ q ≤ 1) ∧
     ((download_file_from_drive wBase "fid" "dest.bin" (PyCreds.creds cred0)).snd).countP
          isProgress =
        fetchedChunks (wBase.driveFileSize "fid") wBase.chunkSize wBase.chunkPlan 0) :=
  ⟨rfl, c8_download_open_progress wBase "fid" "dest.bin" cred0 rfl⟩

set_option maxHeartbeats 1000000 in
/-- Claim C9, counterexample: with the empty string supplied as the
parent-folder identifier (an identifier is given, but falsy), the metadata
body the uploader builds carries no parents list — `if parent_folder_id:`
tests truthiness, not presence. -/
theorem c9_parents_counterexample :
    createdMeta (upload_file_to_drive wBase "docs/report.txt" Option.none
        (PyCreds.creds cred0) (some "")).snd
      = some { name := "report.txt", parents := Option.none } ∧
    (some "" : Option String) ≠ Option.none := by
  exact ⟨by decide, by decide⟩

/-- Claim C9, amended: the uploader's metadata body names the file after the
final path segment, carries a parents list exactly when a truthy (non-empty)
parent-folder identifier is given, and the call returns the identifier the
service assigned. -/
theorem c9_upload_metadata (w : World) (path : String) (mime : Option String)
    (c : Credentials) (pid : Option String)
    (hp : w.pathExists path = true) (he : w.driveCreateErr = Option.none) :
    createdMeta (upload_file_to_drive w path mime (PyCreds.creds c) pid).snd
      = some { name := basename path,
               parents := match pid with
                 | some p => if p = "" then Option.none else some [p]
                 | Option.none => Option.none } ∧
    (upload_file_to_drive w path mime (PyCreds.creds c) pid).fst
      = Except.ok w.driveCreatedId := by
  constructor
  · cases pid with
    | none => simp [upload_file_to_drive, resolveCreds, hp, createdMeta]
    | some p =>
        by_cases hps : p = ""
        · simp [upload_file_to_drive, resolveCreds, hp, hps, createdMeta]
        · simp [upload_file_to_drive, resolveCreds, hp, hps, createdMeta]
  · simp [upload_file_to_drive, resolveCreds, hp, he]

/-- Witness for C9 (amended) at a concrete world, path and folder id. -/
theorem c9_upload_metadata_witness :
    wBase.pathExists "docs/report.txt" = true ∧
    wBase.driveCreateErr = Option.none ∧
    createdMeta (upload_file_to_drive wBase "docs/report.txt" Option.none
        (PyCreds.creds cred0) (some "folder1")).snd
      = some { name := "report.txt", parents := some ["folder1"] } ∧
    (upload_file_to_drive wBase "docs/report.txt" Option.none
        (PyCreds.creds cred0) (some "folder1")).fst = Except.ok "id-new-file-001" := by
  refine ⟨rfl, rfl, ?_, ?_⟩
  · exact (c9_upload_metadata wBase "docs/report.txt" Option.none cred0
        (some "folder1") rfl rfl).1.trans (by decide)
  · exact (c9_upload_metadata wBase "docs/report.txt" Option.none cred0
        (some "folder1") rfl rfl).2.trans rfl

/-- Claim C2, counterexample: when the key file is missing, `main` does not
exit normally — `get_credentials()` is called outside every try block and
its error propagates out of `main`. -/
theorem c2_main_counterexample :
    main wNoCred = Except.error (PyError.fileNotFound "service_account.json") := by
  rfl

/-- Claim C2, amended: whenever credential loading succeeds and creating
the sample upload file succeeds (the path already exists or the local write
does not fail), `main` exits normally for every outcome of its read, write,
upload and download steps — their failures are caught and printed per-step;
but a credential-loading failure or a sample-file-creation failure occurs
outside every try block and propagates as a process failure. -/
theorem c2_main_amended (w : World)
    (h1 : isOkE (get_credentials w (SERVICE_ACCOUNT_FILE w) SCOPES).fst = true)
    (h2 : w.localWriteErr "example_upload.txt" = Option.none) :
    isOkE (main w) = true := by
  unfold main
  cases hg : (get_credentials w (SERVICE_ACCOUNT_FILE w) SCOPES).fst with
  | error e => rw [hg] at h1; simp [isOkE] at h1
  | ok creds0 =>
      have hw := write_sheet_values_world w "YOUR_SPREADSHEET_ID" "Sheet1!A1:B3"
        demoWriteValues (PyCreds.creds creds0) "RAW"
      cases hpe : w.pathExists "example_upload.txt" <;>
        simp [ensureLocalFile, isOkE, hw.1, hw.2, h2, hpe]

/-- Witness for C2 (amended) at a concrete world. -/
theorem c2_main_amended_witness :
    isOkE (get_credentials wBase (SERVICE_ACCOUNT_FILE wBase) SCOPES).fst = true ∧
    wBase.localWriteErr "example_upload.txt" = Option.none ∧
    isOkE (main wBase) = true :=
  ⟨rfl, rfl, c2_main_amended wBase rfl rfl⟩

/-- Claim C10: in each of the five operations, any falsy credential
argument (`None` or another falsy value) makes the operation load and use
fresh default credentials via the Credential Loader, while a truthy
credential object is used exactly as supplied (observed through the
credential bound by the operation's client build). -/
theorem c10_falsy_creds (w : World) (sid rng : String) (vals : Grid)
    (path : String) (mime : Option String) (pid : Option String)
    (fid dest fid2 : String) (pc : PyCreds) :
    (pyTruthy pc = false →
      w.pathExists (SERVICE_ACCOUNT_FILE w) = true →
      w.keyParseOk (SERVICE_ACCOUNT_FILE w) = true →
      (usedCreds (read_sheet_values w sid rng pc).snd
          = some { saFile := SERVICE_ACCOUNT_FILE w, scopes := SCOPES } ∧
       usedCreds (write_sheet_values w sid rng vals pc "RAW").snd.snd
          = some { saFile := SERVICE_ACCOUNT_FILE w, scopes := SCOPES } ∧
       usedCreds (upload_file_to_drive w path mime pc pid).snd
          = some { saFile := SERVICE_ACCOUNT_FILE w, scopes := SCOPES } ∧
       usedCreds (download_file_from_drive w fid dest pc).snd
          = some { saFile := SERVICE_ACCOUNT_FILE w, scopes := SCOPES } ∧
       usedCreds (get_file_metadata w fid2 pc).snd
          = some { saFile := SERVICE_ACCOUNT_FILE w, scopes := SCOPES })) ∧
    (∀ c : Credentials, pc = PyCreds.creds c →
      (usedCreds (read_sheet_values w sid rng pc).snd = some c ∧
       usedCreds (write_sheet_values w sid rng vals pc "RAW").snd.snd = some c ∧
       usedCreds (upload_file_to_drive w path mime pc pid).snd = some c ∧
       usedCreds (download_file_from_drive w fid dest pc).snd = some c ∧
       usedCreds (get_file_metadata w fid2 pc).snd = some c)) := by
  constructor
  · intro hf h1 h2
    have hres : resolveCreds w pc
        = (Except.ok { saFile := SERVICE_ACCOUNT_FILE w, scopes := SCOPES },
           [Event.parseKeyFile (SERVICE_ACCOUNT_FILE w)]) := by
      cases pc with
      | creds c => simp [pyTruthy] at hf
      | none => simp [resolveCreds, get_credentials, h1, h2]
      | falsyObj => simp [resolveCreds, get_credentials, h1, h2]
    refine ⟨?_, ?_, ?_, ?_, ?_⟩
    · simp [read_sheet_values, hres, usedCreds]
    · simp [write_sheet_values, hres, usedCreds]
    · cases hpe : w.pathExists path <;>
        simp [upload_file_to_drive, hres, hpe, usedCreds]
    · rcases hl : downloadLoop (w.driveFileSize fid) w.chunkSize w.chunkPlan 0 with ⟨lres, levs⟩
      cases hdw : w.destWritable dest
      · simp [download_file_from_drive, hres, hdw, usedCreds]
      · cases lres <;> simp [download_file_from_drive, hres, hdw, hl, usedCreds]
    · simp [get_file_metadata, hres, usedCreds]
  · intro c hc
    subst hc
    refine ⟨?_, ?_, ?_, ?_, ?_⟩
    · simp [read_sheet_values, resolveCreds, usedCreds]
    · simp [write_sheet_values, resolveCreds, usedCreds]
    · cases hpe : w.pathExists path <;>
        simp [upload_file_to_drive, resolveCreds, hpe, usedCreds]
    · rcases hl : downloadLoop (w.driveFileSize fid) w.chunkSize w.chunkPlan 0 with ⟨lres, levs⟩
      cases hdw : w.destWritable dest
      · simp [download_file_from_drive, resolveCreds, hdw, usedCreds]
      · cases lres <;> simp [download_file_from_drive, resolveCreds, hdw, hl, usedCreds]
    · simp [get_file_metadata, resolveCreds, usedCreds]

/-- Witness for C10 with the falsy `None` argument at a concrete world. -/
theorem c10_falsy_creds_witness :
    pyTruthy PyCreds.none = false ∧
    wBase.pathExists (SERVICE_ACCOUNT_FILE wBase) = true ∧
    wBase.keyParseOk (SERVICE_ACCOUNT_FILE wBase) = true ∧
    (usedCreds (read_sheet_values wBase "s1" "r1" PyCreds.none).snd
        = some { saFile := SERVICE_ACCOUNT_FILE wBase, scopes := SCOPES } ∧
     usedCreds (write_sheet_values wBase "s1" "r1" [] PyCreds.none "RAW").snd.snd
        = some { saFile := SERVICE_ACCOUNT_FILE wBase, scopes := SCOPES } ∧
     usedCreds (upload_file_to_drive wBase "p.txt" Option.none PyCreds.none Option.none).snd
        = some { saFile := SERVICE_ACCOUNT_FILE wBase, scopes := SCOPES } ∧
     usedCreds (download_file_from_drive wBase "f1" "d1" PyCreds.none).snd
        = some { saFile := SERVICE_ACCOUNT_FILE wBase, scopes := SCOPES } ∧
     usedCreds (get_file_metadata wBase "f2" PyCreds.none).snd
        = some { saFile := SERVICE_ACCOUNT_FILE wBase, scopes := SCOPES }) :=
  ⟨rfl, rfl, rfl,
    (c10_falsy_creds wBase "s1" "r1" [] "p.txt" Option.none Option.none "f1" "d1" "f2"
      PyCreds.none).1 rfl rfl rfl⟩

end SheetDrive
